import Mathlib

/-!
Verification model of the IT Ticketing System API.

The embedding follows the two source files of the repository:

* `schemas.py` — the pydantic models `Ticket`, `TicketUpdate`, `Comment`
  and their validation rules, embedded as Lean structures together with
  boolean validity predicates (FastAPI runs pydantic validation before a
  handler executes, returning HTTP 422 on failure).
* `main.py` — the request handlers `create_ticket`, `list_tickets`,
  `get_ticket`, `update_ticket`, `add_comment`, embedded as pure functions
  from a store state (and the request data, plus the clock value and the
  store-generated key, passed explicitly) to an HTTP-level result and the
  new store state.

The document store adapter (`database.py`, imported by `main.py` but not
part of the sources here) is modelled from the specification, section 4.1:
`create` stamps `created_at` and `updated_at` with the current UTC time and
returns the generated identifier as a string; `list` performs equality
filtering in insertion order.  Where `main.py` calls pymongo directly
(`find_one`, `find_one_and_update`, `find(...).sort("created_at", 1)`),
those calls are embedded on the list-backed store below.

Timestamps are modelled as natural numbers (UTC instants); their rendering
to ISO-8601 strings is an injective formatting step that the claims never
inspect, so outputs keep the numeric timestamp.  MongoDB ObjectId keys are
modelled by their canonical 24-character lowercase hexadecimal string; the
bson `ObjectId` constructor accepts either case of hex digit and raises
`InvalidId` otherwise, which `parseObjectId` reflects with `Option`.
-/

namespace Ticketing

/-- JSON-style value held by a document field: either null or a string.
Fields of a freshly created ticket are strings (or null for an omitted
assignee); a PATCH may also write an explicit null into any optional
field, so stored ticket fields range over this type. -/
inductive JVal where
  | null : JVal
  | str : String → JVal
deriving DecidableEq, Repr

/-- ASCII hexadecimal digit, either case, as accepted by the hex decoding
inside the bson ObjectId constructor. -/
def isHexChar (c : Char) : Bool :=
  c.isDigit || (('a' ≤ c) && (c ≤ 'f')) || (('A' ≤ c) && (c ≤ 'F'))

/-- Embeds the bson ObjectId string check: a string is accepted iff it has
exactly 24 characters, all hexadecimal digits (either case). -/
def isValidObjectIdStr (s : String) : Bool :=
  s.length == 24 && s.toList.all isHexChar

/-- Lowercase an ASCII character, as the hex rendering of an ObjectId
does for its digits. -/
def lowerChar (c : Char) : Char :=
  if ('A' ≤ c) && (c ≤ 'Z') then Char.ofNat (c.toNat + 32) else c

/-- Canonical string form of an ObjectId: str(ObjectId(s)) renders the hex
digits in lowercase. -/
def oidCanon (s : String) : String := ⟨s.toList.map lowerChar⟩

/-- Embeds ObjectId(s): the canonical key on success, none when bson would
raise InvalidId. -/
def parseObjectId (s : String) : Option String :=
  if isValidObjectIdStr s then some (oidCanon s) else none

/-- Priority literal values from schemas.py. -/
def priorities : List String := ["low", "medium", "high", "urgent"]

/-- Status literal values from schemas.py. -/
def statuses : List String := ["open", "in_progress", "resolved", "closed"]

/-- Split a character list at every occurrence of the separator, in the
style of str.split. -/
def splitChar (sep : Char) : List Char → List (List Char)
  | [] => [[]]
  | c :: rest =>
    let r := splitChar sep rest
    if c == sep then [] :: r
    else
      match r with
      | [] => [[c]]
      | h :: t => (c :: h) :: t

/-- Modelled approximation of pydantic EmailStr: one @ sign separating a
nonempty local part from a nonempty domain that contains a dot, and no
spaces.  The claims only need that the same predicate gates input and
states the data-model constraint, never its exact extension. -/
def isValidEmail (s : String) : Bool :=
  match splitChar '@' s.toList with
  | [l, d] => (!l.isEmpty) && (!d.isEmpty) && d.contains '.'
      && !(s.toList.contains ' ')
  | _ => false

/-- Creation payload for POST /api/tickets (class Ticket in schemas.py).
priority and status are optional in the request body and default to
"medium" and "open"; both reject null, so an Option models presence. -/
structure Ticket where
  title : String
  description : String
  requester_email : String
  category : String
  priority : Option String := none
  status : Option String := none
  assignee : Option String := none
deriving DecidableEq, Repr

/-- Pydantic validation of a Ticket payload: title length 3 to 200,
description length at least 5, a valid email, and priority and status
drawn from their literal enumerations when present.  category and
assignee carry no constraint. -/
def Ticket.valid (p : Ticket) : Bool :=
  decide (3 ≤ p.title.length) && decide (p.title.length ≤ 200)
    && decide (5 ≤ p.description.length)
    && isValidEmail p.requester_email
    && (match p.priority with | none => true | some v => priorities.contains v)
    && (match p.status with | none => true | some v => statuses.contains v)

/-- Partial-update payload for PATCH /api/tickets/:id (class TicketUpdate
in schemas.py).  Every field is Optional with default None; pydantic
model_dump(exclude_unset=True) distinguishes an absent field (outer none)
from an explicit null in the body (some JVal.null) and from a string value
(some (JVal.str s)). -/
structure TicketUpdate where
  title : Option JVal := none
  description : Option JVal := none
  requester_email : Option JVal := none
  category : Option JVal := none
  priority : Option JVal := none
  status : Option JVal := none
  assignee : Option JVal := none
deriving DecidableEq, Repr

/-- Pydantic validation of a TicketUpdate: a string value supplied for
requester_email must be a valid email, and string values for priority and
status must come from their enumerations; explicit nulls are accepted by
every Optional field, and title, description, category, assignee carry no
constraint at all. -/
def TicketUpdate.valid (u : TicketUpdate) : Bool :=
  (match u.requester_email with | some (.str s) => isValidEmail s | _ => true)
    && (match u.priority with | some (.str v) => priorities.contains v | _ => true)
    && (match u.status with | some (.str v) => statuses.contains v | _ => true)

/-- True iff no field of the update was present in the request body, i.e.
model_dump(exclude_unset=True) is the empty dict. -/
def TicketUpdate.isEmpty (u : TicketUpdate) : Bool :=
  u.title.isNone && u.description.isNone && u.requester_email.isNone
    && u.category.isNone && u.priority.isNone && u.status.isNone
    && u.assignee.isNone

/-- Comment creation payload for POST /api/tickets/:id/comments (class
Comment in schemas.py): ticket_id, author and a nonempty body. -/
structure Comment where
  ticket_id : String
  author : String
  body : String
deriving DecidableEq, Repr

/-- Pydantic validation of a Comment payload: body has min_length 1. -/
def Comment.valid (p : Comment) : Bool :=
  decide (1 ≤ p.body.length)

/-- Stored ticket document: the canonical key plus the payload fields and
the server-side timestamps. -/
structure TicketDoc where
  oid : String
  title : JVal
  description : JVal
  requester_email : JVal
  category : JVal
  priority : JVal
  status : JVal
  assignee : JVal
  created_at : Nat
  updated_at : Nat
deriving DecidableEq, Repr

/-- Stored comment document. -/
structure CommentDoc where
  oid : String
  ticket_id : String
  author : String
  body : String
  created_at : Nat
  updated_at : Nat
deriving DecidableEq, Repr

/-- The document store: the ticket and comment collections, each in
insertion order. -/
structure Store where
  tickets : List TicketDoc
  comments : List CommentDoc
deriving DecidableEq, Repr

/-- The empty store. -/
def Store.empty : Store := ⟨[], []⟩

/-- Ticket object as returned over HTTP: the internal key renamed to id
(its string form) and timestamps normalised (kept numeric here, the
ISO-8601 rendering being injective formatting). -/
structure TicketOut where
  id : String
  title : JVal
  description : JVal
  requester_email : JVal
  category : JVal
  priority : JVal
  status : JVal
  assignee : JVal
  created_at : Nat
  updated_at : Nat
deriving DecidableEq, Repr

/-- Comment object as returned over HTTP. -/
structure CommentOut where
  id : String
  ticket_id : String
  author : String
  body : String
  created_at : Nat
  updated_at : Nat
deriving DecidableEq, Repr

/-- Response transform for a ticket document: rename the key to id,
keep every other field. -/
def TicketDoc.toOut (d : TicketDoc) : TicketOut :=
  { id := d.oid, title := d.title, description := d.description
    requester_email := d.requester_email, category := d.category
    priority := d.priority, status := d.status, assignee := d.assignee
    created_at := d.created_at, updated_at := d.updated_at }

/-- Response transform for a comment document. -/
def CommentDoc.toOut (c : CommentDoc) : CommentOut :=
  { id := c.oid, ticket_id := c.ticket_id, author := c.author
    body := c.body, created_at := c.created_at, updated_at := c.updated_at }

/-- Response of GET /api/tickets/:id: the ticket object with the embedded
comments array. -/
structure TicketDetail where
  ticket : TicketOut
  comments : List CommentOut
deriving DecidableEq, Repr

/-- HTTP-level outcome of a handler: a success value, or an error with its
HTTP status code and detail string (422 pydantic validation, 404 not
found, 500 for any other exception caught by the blanket handler). -/
inductive ApiResult (α : Type) where
  | ok : α → ApiResult α
  | error : Nat → String → ApiResult α
deriving DecidableEq, Repr

/-- Response of PATCH /api/tickets/:id: either the no-op dict
with updated: false, or the transformed post-update ticket. -/
inductive UpdateResp where
  | noop : String → UpdateResp
  | updated : TicketOut → UpdateResp
deriving DecidableEq, Repr

/-- Ticket document created by POST /api/tickets, with the store create
operation modelled from the spec, section 4.1: the store stamps
created_at and updated_at with the current time.  The generated key newId
and the clock value now are explicit parameters.  The defaults
priority = medium, status = open and assignee = null are filled in for
omitted fields, as pydantic does before the handler body runs. -/
def mkTicketDoc (p : Ticket) (newId : String) (now : Nat) : TicketDoc :=
  { oid := newId, title := .str p.title, description := .str p.description
    requester_email := .str p.requester_email, category := .str p.category
    priority := .str (p.priority.getD "medium")
    status := .str (p.status.getD "open")
    assignee := match p.assignee with | some a => .str a | none => .null
    created_at := now, updated_at := now }

/-- Handler body of POST /api/tickets: append the stamped document and
return the generated id. -/
def create_ticket (st : Store) (p : Ticket) (newId : String) (now : Nat) :
    ApiResult String × Store :=
  if p.valid then
    (.ok newId, { st with tickets := st.tickets ++ [mkTicketDoc p newId now] })
  else (.error 422 "validation error", st)

/-- Named ticket field lookup, used by the equality filter of the list
endpoint (a filter dict key selects the field of the same name). -/
def TicketDoc.field (d : TicketDoc) : String → JVal
  | "title" => d.title
  | "description" => d.description
  | "requester_email" => d.requester_email
  | "category" => d.category
  | "priority" => d.priority
  | "status" => d.status
  | "assignee" => d.assignee
  | _ => .null

/-- Filter dict built by list_tickets in main.py: a key is added only when
the query parameter is present and truthy (the empty string is falsy in
Python, so it adds no filter). -/
def ticketFilter (status priority : Option String) : List (String × String) :=
  (match status with
   | some s => if s == "" then [] else [("status", s)]
   | none => [])
    ++ (match priority with
        | some pr => if pr == "" then [] else [("priority", pr)]
        | none => [])

/-- Store list operation, modelled from the spec, section 4.1: equality
filtering only, unfiltered fields ignored, results in insertion order. -/
def get_documents (st : Store) (filter : List (String × String)) :
    List TicketDoc :=
  st.tickets.filter (fun d => filter.all (fun kv => d.field kv.1 == .str kv.2))

/-- Handler of GET /api/tickets: build the filter dict from the query
parameters, list matching documents, transform each. -/
def list_tickets (st : Store) (status priority : Option String) :
    List TicketOut :=
  (get_documents st (ticketFilter status priority)).map TicketDoc.toOut

/-- Comments sorted ascending by created_at, embedding the store sort
find(...).sort("created_at", 1) of the ticket detail view. -/
def sortComments (l : List CommentDoc) : List CommentDoc :=
  List.insertionSort (fun a b => a.created_at ≤ b.created_at) l

/-- Handler of GET /api/tickets/:id.  ObjectId parsing happens inside the
try block, so a malformed id raises InvalidId, which the blanket except
clause converts to HTTP 500.  On success the comments are fetched with an
equality filter on the RAW path string ticket_id (main.py line 118), not
on the canonical key, sorted ascending by created_at, and embedded. -/
def get_ticket (st : Store) (ticket_id : String) : ApiResult TicketDetail :=
  match parseObjectId ticket_id with
  | none => .error 500 "InvalidId"
  | some key =>
    match st.tickets.find? (fun d => d.oid == key) with
    | none => .error 404 "Ticket not found"
    | some doc =>
      let cs := sortComments (st.comments.filter (fun c => c.ticket_id == ticket_id))
      .ok { ticket := doc.toOut, comments := cs.map CommentDoc.toOut }

/-- Overwrite a stored field when the update carries a value for it (the
value may be an explicit null), keep the current value otherwise. -/
def setField (cur : JVal) : Option JVal → JVal
  | some v => v
  | none => cur

/-- Effect of the update dict to_set (the present fields of the update
plus a refreshed updated_at) applied by the store on one document. -/
def TicketDoc.applyUpdate (d : TicketDoc) (u : TicketUpdate) (now : Nat) :
    TicketDoc :=
  { oid := d.oid
    title := setField d.title u.title
    description := setField d.description u.description
    requester_email := setField d.requester_email u.requester_email
    category := setField d.category u.category
    priority := setField d.priority u.priority
    status := setField d.status u.status
    assignee := setField d.assignee u.assignee
    created_at := d.created_at
    updated_at := now }

/-- Embeds find_one_and_update with return_document AFTER on the ticket
collection: update the first document whose key matches in place and
return the post-update document, or none when no document matches. -/
def findOneAndUpdate (l : List TicketDoc) (key : String) (u : TicketUpdate)
    (now : Nat) : Option TicketDoc × List TicketDoc :=
  match l with
  | [] => (none, [])
  | d :: rest =>
    if d.oid == key then (some (d.applyUpdate u now), d.applyUpdate u now :: rest)
    else
      let r := findOneAndUpdate rest key u now
      (r.1, d :: r.2)

/-- Handler of PATCH /api/tickets/:id.  Pydantic validation of the body
runs first (HTTP 422 on failure).  An empty set of present fields
short-circuits to the updated: false response BEFORE the id string is
parsed and before any store access.  Otherwise a malformed id raises
InvalidId inside the try block (HTTP 500 via the blanket handler), an
unmatched key yields HTTP 404, and a match atomically applies the present
fields plus a refreshed updated_at and returns the transformed
post-update document. -/
def update_ticket (st : Store) (ticket_id : String) (u : TicketUpdate)
    (now : Nat) : ApiResult UpdateResp × Store :=
  if u.valid then
    if u.isEmpty then (.ok (.noop ticket_id), st)
    else
      match parseObjectId ticket_id with
      | none => (.error 500 "InvalidId", st)
      | some key =>
        let r := findOneAndUpdate st.tickets key u now
        match r.1 with
        | none => (.error 404 "Ticket not found", st)
        | some d => (.ok (.updated d.toOut), { st with tickets := r.2 })
  else (.error 422 "validation error", st)

/-- Handler of POST /api/tickets/:id/comments.  Pydantic validation of the
body runs first.  A malformed id raises InvalidId inside the try block
(HTTP 500).  The existence check uses the parsed key; on success the
stored document is the dict merge of the payload with ticket_id set to
the RAW path parameter, which silently overrides any ticket_id carried by
the body (main.py line 166).  The store create operation is modelled from
the spec, section 4.1 (timestamp stamping, generated key newId). -/
def add_comment (st : Store) (ticket_id : String) (p : Comment)
    (newId : String) (now : Nat) : ApiResult String × Store :=
  if p.valid then
    match parseObjectId ticket_id with
    | none => (.error 500 "InvalidId", st)
    | some key =>
      if st.tickets.any (fun d => d.oid == key) then
        let c : CommentDoc :=
          { oid := newId, ticket_id := ticket_id, author := p.author
            body := p.body, created_at := now, updated_at := now }
        (.ok newId, { st with comments := st.comments ++ [c] })
      else (.error 404 "Ticket not found", st)
  else (.error 422 "validation error", st)

/-- Data-model constraint on a stored title: a string of length 3 to 200. -/
def titleOk : JVal → Bool
  | .str s => decide (3 ≤ s.length) && decide (s.length ≤ 200)
  | .null => false

/-- Data-model constraint on a stored description: length at least 5. -/
def descriptionOk : JVal → Bool
  | .str s => decide (5 ≤ s.length)
  | .null => false

/-- Data-model constraint on a stored requester email. -/
def emailOk : JVal → Bool
  | .str s => isValidEmail s
  | .null => false

/-- The data-model constraints of the spec, section 3, on one stored
ticket: title length 3 to 200, description length at least 5, valid
requester email. -/
def TicketDoc.constraintsOk (d : TicketDoc) : Bool :=
  titleOk d.title && descriptionOk d.description && emailOk d.requester_email

/-- Store states reachable through the public endpoints without any PATCH
update: the empty store, ticket creations and comment creations (each
endpoint leaves the store unchanged when it rejects the request). -/
inductive ReachableNoUpdate : Store → Prop where
  | empty : ReachableNoUpdate Store.empty
  | create (st : Store) (p : Ticket) (newId : String) (now : Nat) :
      ReachableNoUpdate st → ReachableNoUpdate (create_ticket st p newId now).2
  | comment (st : Store) (tid : String) (p : Comment) (newId : String) (now : Nat) :
      ReachableNoUpdate st → ReachableNoUpdate (add_comment st tid p newId now).2

/-! Concrete data used by witnesses and counterexamples. -/

/-- Concrete valid creation payload. -/
def demoTicket : Ticket :=
  { title := "Printer broken", description := "It does not print"
    requester_email := "user@example.com", category := "Hardware" }

/-- Concrete valid creation payload with explicit status and priority. -/
def demoTicket2 : Ticket :=
  { title := "VPN is down", description := "Cannot connect from home"
    requester_email := "dev@example.com", category := "Network"
    priority := some "high", status := none }

/-- Concrete canonical ObjectId strings. -/
def oidA : String := "aaaaaaaaaaaaaaaaaaaaaaaa"

/-- Second concrete id, for comments. -/
def oidB : String := "bbbbbbbbbbbbbbbbbbbbbbbb"

/-- Third concrete id. -/
def oidC : String := "cccccccccccccccccccccccc"

/-- Fourth concrete id. -/
def oidD : String := "dddddddddddddddddddddddd"

/-- Fifth concrete id. -/
def oidE : String := "eeeeeeeeeeeeeeeeeeeeeeee"

/-- Uppercase rendering of oidA: a distinct string that parses to the same
ObjectId. -/
def oidAU : String := "AAAAAAAAAAAAAAAAAAAAAAAA"

/-- Concrete comment payload whose body ticket_id differs from the demo
ticket id. -/
def demoComment : Comment :=
  { ticket_id := oidC, author := "bob", body := "hello" }

/-- Store holding the single demo ticket, created through the endpoint. -/
def demoStore : Store := (create_ticket Store.empty demoTicket oidA 1).2

/-! Helper lemmas shared by the claim theorems. -/

/-- An update with no present field passes pydantic validation. -/
theorem TicketUpdate.valid_of_isEmpty (u : TicketUpdate) (h : u.isEmpty = true) :
    u.valid = true := by
  simp only [TicketUpdate.isEmpty, Bool.and_eq_true, Option.isNone_iff_eq_none] at h
  obtain ⟨⟨⟨⟨⟨⟨-, -⟩, hr⟩, -⟩, hp⟩, hs⟩, -⟩ := h
  simp [TicketUpdate.valid, hr, hp, hs]

/-- find_one_and_update on a collection whose first key match is the
document d: the documents before d are untouched, d is replaced in place
by its update, the post-update document is returned. -/
theorem findOneAndUpdate_append (pre post : List TicketDoc) (d : TicketDoc)
    (key : String) (u : TicketUpdate) (now : Nat)
    (hpre : ∀ e ∈ pre, e.oid ≠ key) (hd : d.oid = key) :
    findOneAndUpdate (pre ++ d :: post) key u now
      = (some (d.applyUpdate u now), pre ++ d.applyUpdate u now :: post) := by
  induction pre with
  | nil => simp [findOneAndUpdate, hd]
  | cons e rest ih =>
    have he : (e.oid == key) = false := by
      simp [hpre e (List.mem_cons_self e rest)]
    simp [findOneAndUpdate, he,
      ih (fun x hx => hpre x (List.mem_cons_of_mem e hx))]

/-- add_comment never writes to the ticket collection. -/
theorem add_comment_tickets (st : Store) (tid : String) (p : Comment)
    (newId : String) (now : Nat) :
    (add_comment st tid p newId now).2.tickets = st.tickets := by
  cases hval : p.valid with
  | false => simp [add_comment, hval]
  | true =>
    cases hp : parseObjectId tid with
    | none => simp [add_comment, hval, hp]
    | some key =>
      cases hany : st.tickets.any (fun d => d.oid == key) with
      | false => simp [add_comment, hval, hp, hany]
      | true => simp [add_comment, hval, hp, hany]

/-- A ticket document built from a payload that passed pydantic validation
satisfies the data-model constraints. -/
theorem mkTicketDoc_constraintsOk (p : Ticket) (newId : String) (now : Nat)
    (hv : p.valid = true) :
    (mkTicketDoc p newId now).constraintsOk = true := by
  simp only [Ticket.valid, Bool.and_eq_true, decide_eq_true_eq] at hv
  obtain ⟨⟨⟨⟨⟨h1, h2⟩, h3⟩, h4⟩, -⟩, -⟩ := hv
  simp [mkTicketDoc, TicketDoc.constraintsOk, titleOk, descriptionOk, emailOk,
    h1, h2, h3, h4]

/-- The store sort permutes the comment list. -/
theorem sortComments_perm (l : List CommentDoc) : (sortComments l).Perm l :=
  List.perm_insertionSort (fun a b : CommentDoc => a.created_at ≤ b.created_at) l

/-- The store sort orders comments ascending by created_at. -/
theorem sortComments_sorted (l : List CommentDoc) :
    List.Sorted (fun a b : CommentDoc => a.created_at ≤ b.created_at)
      (sortComments l) := by
  haveI : IsTotal CommentDoc (fun a b : CommentDoc => a.created_at ≤ b.created_at) :=
    ⟨fun a b => Nat.le_total a.created_at b.created_at⟩
  haveI : IsTrans CommentDoc (fun a b : CommentDoc => a.created_at ≤ b.created_at) :=
    ⟨fun a b c hab hbc => Nat.le_trans hab hbc⟩
  exact List.sorted_insertionSort (fun a b : CommentDoc => a.created_at ≤ b.created_at) l

/-! Claim theorems. -/

/-- C1: the claim (with the spec) requires a ticket id that is not a
syntactically valid store key to surface as a client error (4xx) on
GET /api/tickets/:id, PATCH /api/tickets/:id and
POST /api/tickets/:id/comments.  The code instead parses the id inside
each try block, bson raises InvalidId there, and the blanket except
clause converts it to HTTP 500 — a server error — on all three
endpoints.  This theorem records the actual behaviour of the code at the
malformed id string "not-an-objectid". -/
theorem c1_malformed_id_yields_500 :
    get_ticket Store.empty "not-an-objectid" = .error 500 "InvalidId"
      ∧ (update_ticket Store.empty "not-an-objectid"
          { status := some (.str "resolved") } 5).1 = .error 500 "InvalidId"
      ∧ (add_comment Store.empty "not-an-objectid"
          { ticket_id := "x", author := "amy", body := "hi" } oidB 5).1
        = .error 500 "InvalidId" := by
  decide

/-- C3: a PATCH whose body has no present field returns the dict
with updated: false and the original id, and the store — every stored
record, including its updated_at — is exactly the store before the
request: the short-circuit runs before any store access. -/
theorem c3_empty_update_is_noop (st : Store) (ticket_id : String)
    (u : TicketUpdate) (now : Nat) (he : u.isEmpty = true) :
    update_ticket st ticket_id u now = (.ok (.noop ticket_id), st) := by
  simp [update_ticket, TicketUpdate.valid_of_isEmpty u he, he]

/-- C3 witness. -/
theorem c3_empty_update_is_noop_witness :
    ({} : TicketUpdate).isEmpty = true
      ∧ update_ticket demoStore oidA {} 9 = (.ok (.noop oidA), demoStore) :=
  ⟨by decide, c3_empty_update_is_noop demoStore oidA {} 9 (by decide)⟩

/-- C10: the empty-update short-circuit of PATCH /api/tickets/:id runs
before the id string is parsed and before any existence check, so every
id string whatsoever — including ids of absent tickets and ids that are
not well-formed store keys — gets the updated: false response, never a
404 and never any error. -/
theorem c10_empty_update_ignores_id (st : Store) (ticket_id : String)
    (u : TicketUpdate) (now : Nat) (he : u.isEmpty = true) :
    (update_ticket st ticket_id u now).1 = .ok (.noop ticket_id)
      ∧ ∀ code detail, (update_ticket st ticket_id u now).1 ≠ .error code detail := by
  have hv := TicketUpdate.valid_of_isEmpty u he
  constructor
  · simp [update_ticket, hv, he]
  · intro code detail
    simp [update_ticket, hv, he]

/-- C10 witness, at an id that is not a well-formed ObjectId. -/
theorem c10_empty_update_ignores_id_witness :
    ({} : TicketUpdate).isEmpty = true
      ∧ isValidObjectIdStr "definitely-not-a-key" = false
      ∧ (update_ticket Store.empty "definitely-not-a-key" {} 9).1
        = .ok (.noop "definitely-not-a-key") :=
  ⟨by decide, by decide,
    (c10_empty_update_ignores_id Store.empty "definitely-not-a-key" {} 9 (by decide)).1⟩

/-- C4: POST /api/tickets/:id/comments on a well-formed key: when no
stored ticket has that key the endpoint returns 404 and the whole store
— in particular the comment collection — is unchanged; when a stored
ticket has that key, the comment document (stamped, keyed by the
generated id) is appended and the generated id is returned. -/
theorem c4_comment_requires_existing_ticket (st : Store) (ticket_id : String)
    (p : Comment) (newId : String) (now : Nat)
    (hp : p.valid = true) (hid : isValidObjectIdStr ticket_id = true) :
    ((∀ d ∈ st.tickets, d.oid ≠ oidCanon ticket_id) →
        add_comment st ticket_id p newId now = (.error 404 "Ticket not found", st))
      ∧ ((∃ d ∈ st.tickets, d.oid = oidCanon ticket_id) →
        add_comment st ticket_id p newId now
          = (.ok newId,
            { st with comments := st.comments ++
                [{ oid := newId, ticket_id := ticket_id, author := p.author
                   body := p.body, created_at := now, updated_at := now }] })) := by
  have hparse : parseObjectId ticket_id = some (oidCanon ticket_id) := by
    simp [parseObjectId, hid]
  constructor
  · intro habs
    have hany : st.tickets.any (fun d => d.oid == oidCanon ticket_id) = false := by
      simp only [List.any_eq_false, beq_iff_eq]
      exact habs
    simp [add_comment, hp, hparse, hany]
  · intro hex
    have hany : st.tickets.any (fun d => d.oid == oidCanon ticket_id) = true := by
      simp only [List.any_eq_true, beq_iff_eq]
      exact hex
    simp [add_comment, hp, hparse, hany]

/-- C4 witness: the 404 case on the empty store and the success case on
the store holding the demo ticket. -/
theorem c4_comment_requires_existing_ticket_witness :
    demoComment.valid = true ∧ isValidObjectIdStr oidA = true
      ∧ add_comment Store.empty oidA demoComment oidB 2
        = (.error 404 "Ticket not found", Store.empty)
      ∧ add_comment demoStore oidA demoComment oidB 2
        = (.ok oidB,
          { demoStore with comments := demoStore.comments ++
              [{ oid := oidB, ticket_id := oidA, author := "bob"
                 body := "hello", created_at := 2, updated_at := 2 }] }) :=
  ⟨by decide, by decide,
    (c4_comment_requires_existing_ticket Store.empty oidA demoComment oidB 2
      (by decide) (by decide)).1 (fun d hd => by simp [Store.empty] at hd),
    (c4_comment_requires_existing_ticket demoStore oidA demoComment oidB 2
      (by decide) (by decide)).2
      ⟨mkTicketDoc demoTicket oidA 1, by decide, by decide⟩⟩

/-- C9: the stored comment always carries the path parameter as its
ticket_id: the dict merge in add_comment overrides whatever ticket_id the
request body carried, for any payload p (the appended document mentions
p.author and p.body but not p.ticket_id), so every comment in the new
store either predates the request or references the path id. -/
theorem c9_comment_ticket_id_is_path_param (st : Store) (ticket_id : String)
    (p : Comment) (newId : String) (now : Nat)
    (hp : p.valid = true) (hid : isValidObjectIdStr ticket_id = true)
    (hex : ∃ d ∈ st.tickets, d.oid = oidCanon ticket_id) :
    (add_comment st ticket_id p newId now).2.comments
      = st.comments ++ [{ oid := newId, ticket_id := ticket_id, author := p.author
                          body := p.body, created_at := now, updated_at := now }]
      ∧ ∀ c ∈ (add_comment st ticket_id p newId now).2.comments,
          c ∈ st.comments ∨ c.ticket_id = ticket_id := by
  have hparse : parseObjectId ticket_id = some (oidCanon ticket_id) := by
    simp [parseObjectId, hid]
  have hany : st.tickets.any (fun d => d.oid == oidCanon ticket_id) = true := by
    simp only [List.any_eq_true, beq_iff_eq]
    exact hex
  have heq : (add_comment st ticket_id p newId now).2.comments
      = st.comments ++ [{ oid := newId, ticket_id := ticket_id, author := p.author
                          body := p.body, created_at := now, updated_at := now }] := by
    simp [add_comment, hp, hparse, hany]
  refine ⟨heq, ?_⟩
  intro c hc
  rw [heq] at hc
  rcases List.mem_append.mp hc with h | h
  · exact Or.inl h
  · right
    simp only [List.mem_singleton] at h
    rw [h]

/-- C9 witness: the body of demoComment names oidC as its ticket_id, yet
the stored comment references the path id oidA. -/
theorem c9_comment_ticket_id_is_path_param_witness :
    demoComment.ticket_id = oidC ∧ oidC ≠ oidA
      ∧ (add_comment demoStore oidA demoComment oidB 2).2.comments
        = [{ oid := oidB, ticket_id := oidA, author := "bob", body := "hello"
             created_at := 2, updated_at := 2 }] :=
  ⟨by decide, by decide,
    ((c9_comment_ticket_id_is_path_param demoStore oidA demoComment oidB 2
        (by decide) (by decide)
        ⟨mkTicketDoc demoTicket oidA 1, by decide, by decide⟩).1).trans (by decide)⟩

/-- C2: creating a valid ticket and fetching it by the returned id gives
back a record whose title, description, requester_email, category,
priority, status and assignee equal the input, with status defaulting to
open and priority to medium when omitted, and with created_at equal to
updated_at at creation.  The store-generated key is a fresh canonical
ObjectId string, and the store create stamps both timestamps with the
same clock value (spec section 4.1). -/
theorem c2_create_then_get_roundtrip (st : Store) (p : Ticket)
    (newId : String) (now : Nat)
    (hv : p.valid = true)
    (hid : isValidObjectIdStr newId = true)
    (hcanon : oidCanon newId = newId)
    (hfresh : ∀ d ∈ st.tickets, d.oid ≠ newId) :
    (create_ticket st p newId now).1 = .ok newId
      ∧ ∃ out : TicketDetail,
        get_ticket (create_ticket st p newId now).2 newId = .ok out
          ∧ out.ticket.title = .str p.title
          ∧ out.ticket.description = .str p.description
          ∧ out.ticket.requester_email = .str p.requester_email
          ∧ out.ticket.category = .str p.category
          ∧ out.ticket.status = .str (p.status.getD "open")
          ∧ out.ticket.priority = .str (p.priority.getD "medium")
          ∧ out.ticket.assignee
            = (match p.assignee with | some a => JVal.str a | none => JVal.null)
          ∧ out.ticket.created_at = out.ticket.updated_at := by
  have hparse : parseObjectId newId = some newId := by
    simp [parseObjectId, hid, hcanon]
  have h2 : (create_ticket st p newId now).2
      = { st with tickets := st.tickets ++ [mkTicketDoc p newId now] } := by
    simp [create_ticket, hv]
  have hnone : st.tickets.find? (fun d => d.oid == newId) = none :=
    List.find?_eq_none.mpr (fun x hx => by simp [hfresh x hx])
  have hfind : (st.tickets ++ [mkTicketDoc p newId now]).find?
      (fun d => d.oid == newId) = some (mkTicketDoc p newId now) := by
    rw [List.find?_append, hnone]
    simp [List.find?, mkTicketDoc]
  refine ⟨by simp [create_ticket, hv], ?_⟩
  refine ⟨{ ticket := (mkTicketDoc p newId now).toOut
            comments := (sortComments (st.comments.filter
              (fun c => c.ticket_id == newId))).map CommentDoc.toOut },
    ?_, rfl, rfl, rfl, rfl, rfl, rfl, rfl, rfl⟩
  rw [h2]
  simp [get_ticket, hparse, hfind]

/-- C2 witness. -/
theorem c2_create_then_get_roundtrip_witness :
    demoTicket.valid = true
      ∧ (create_ticket Store.empty demoTicket oidA 7).1 = .ok oidA :=
  ⟨by decide,
    (c2_create_then_get_roundtrip Store.empty demoTicket oidA 7 (by decide)
      (by decide) (by decide) (fun d hd => by simp [Store.empty] at hd)).1⟩

/-- Update payload carrying only the field status with value resolved. -/
def resolvedUpdate : TicketUpdate := { status := some (.str "resolved") }

/-- C6: a PATCH with body carrying only status = resolved, applied to an
existing ticket at a clock value strictly later than its last write,
replaces the stored record by a copy differing ONLY in status and
updated_at (the with-record on the right states exactly that: every
other field, created_at included, is copied), leaves every other stored
record untouched, and the new updated_at equals the strictly larger
clock value. -/
theorem c6_resolve_changes_only_status_and_updated_at
    (pre post : List TicketDoc) (cs : List CommentDoc)
    (d : TicketDoc) (ticket_id : String) (now : Nat)
    (hid : isValidObjectIdStr ticket_id = true)
    (hd : d.oid = oidCanon ticket_id)
    (hpre : ∀ e ∈ pre, e.oid ≠ oidCanon ticket_id)
    (hlt : d.updated_at < now) :
    update_ticket ⟨pre ++ d :: post, cs⟩ ticket_id resolvedUpdate now
      = (.ok (.updated
            ({ d with status := .str "resolved", updated_at := now } : TicketDoc).toOut),
        ⟨pre ++ ({ d with status := .str "resolved", updated_at := now } : TicketDoc) :: post, cs⟩)
      ∧ d.updated_at
        < ({ d with status := .str "resolved", updated_at := now } : TicketDoc).updated_at := by
  have hval : resolvedUpdate.valid = true := by decide
  have hne : resolvedUpdate.isEmpty = false := by decide
  have hparse : parseObjectId ticket_id = some (oidCanon ticket_id) := by
    simp [parseObjectId, hid]
  have happ : d.applyUpdate resolvedUpdate now
      = { d with status := .str "resolved", updated_at := now } := rfl
  have hfau := findOneAndUpdate_append pre post d (oidCanon ticket_id)
    resolvedUpdate now hpre hd
  refine ⟨?_, hlt⟩
  simp [update_ticket, hval, hne, hparse, hfau, happ]

/-- C6 witness. -/
theorem c6_resolve_changes_only_status_and_updated_at_witness :
    isValidObjectIdStr oidA = true
      ∧ (mkTicketDoc demoTicket oidA 1).updated_at < 5
      ∧ update_ticket ⟨[mkTicketDoc demoTicket oidA 1], []⟩ oidA resolvedUpdate 5
        = (.ok (.updated
              ({ mkTicketDoc demoTicket oidA 1 with
                  status := .str "resolved", updated_at := 5 } : TicketDoc).toOut),
          ⟨[({ mkTicketDoc demoTicket oidA 1 with
                status := .str "resolved", updated_at := 5 } : TicketDoc)], []⟩) :=
  ⟨by decide, by decide,
    (c6_resolve_changes_only_status_and_updated_at [] [] []
      (mkTicketDoc demoTicket oidA 1) oidA 5 (by decide) (by decide)
      (fun e he => by simp at he) (by decide)).1⟩

/-- C8: GET /api/tickets with both filters present and nonempty returns
exactly the tickets whose status and priority fields both equal the
given values, as a filter of the collection in insertion order; an
absent parameter adds no constraint (and the same holds for each filter
alone). -/
theorem c8_list_tickets_equality_filters (st : Store) (s pr : String)
    (hs : s ≠ "") (hp : pr ≠ "") :
    list_tickets st (some s) (some pr)
        = (st.tickets.filter
            (fun d => d.status == .str s && d.priority == .str pr)).map TicketDoc.toOut
      ∧ list_tickets st none none = st.tickets.map TicketDoc.toOut
      ∧ list_tickets st none (some pr)
        = (st.tickets.filter (fun d => d.priority == .str pr)).map TicketDoc.toOut
      ∧ list_tickets st (some s) none
        = (st.tickets.filter (fun d => d.status == .str s)).map TicketDoc.toOut := by
  have hs1 : (s == "") = false := by simp [hs]
  have hp1 : (pr == "") = false := by simp [hp]
  have hfs : ∀ d : TicketDoc, d.field "status" = d.status := fun d => rfl
  have hfp : ∀ d : TicketDoc, d.field "priority" = d.priority := fun d => rfl
  refine ⟨?_, ?_, ?_, ?_⟩ <;>
    simp [list_tickets, get_documents, ticketFilter, hs1, hp1, hfs, hfp,
      List.filter_true]

/-- Store with two tickets for the C8 witness: demoTicket is open and
medium, demoTicket2 is open and high. -/
def filterStore : Store :=
  (create_ticket (create_ticket Store.empty demoTicket oidA 1).2
    demoTicket2 oidB 2).2

/-- C8 witness. -/
theorem c8_list_tickets_equality_filters_witness :
    ("open" : String) ≠ "" ∧ ("high" : String) ≠ ""
      ∧ list_tickets filterStore (some "open") (some "high")
        = [(mkTicketDoc demoTicket2 oidB 2).toOut]
      ∧ list_tickets filterStore none none
        = [(mkTicketDoc demoTicket oidA 1).toOut, (mkTicketDoc demoTicket2 oidB 2).toOut] := by
  have h := c8_list_tickets_equality_filters filterStore "open" "high"
    (by decide) (by decide)
  exact ⟨by decide, by decide, h.1.trans (by decide), h.2.1.trans (by decide)⟩

/-- Update payload carrying only a two-character title, which the source
TicketUpdate schema accepts: its title field is a plain Optional string
with no length constraint. -/
def shortTitleUpdate : TicketUpdate := { title := some (.str "ab") }

/-- C5 counterexample: PATCH with title := "ab" on the demo ticket is NOT
rejected with a validation error, and it writes a title of length 2 into
the store, so the reachable state demoStore updated by shortTitleUpdate
violates the title-length constraint of the data model: TicketUpdate in
schemas.py carries no min_length or max_length on title (nor a min_length
on description), unlike Ticket. -/
theorem c5_counterexample :
    (update_ticket demoStore oidA shortTitleUpdate 2).1
        ≠ .error 422 "validation error"
      ∧ ((update_ticket demoStore oidA shortTitleUpdate 2).2.tickets.map
          TicketDoc.title) = [.str "ab"]
      ∧ ((update_ticket demoStore oidA shortTitleUpdate 2).2.tickets.all
          TicketDoc.constraintsOk) = false := by
  decide

/-- C5 amended: in every store state reachable through the public
endpoints WITHOUT PATCH updates (creations and comment additions, with
malformed creation payloads rejected before any store write), every
stored ticket satisfies the data-model constraints on title length,
description length and requester email.  PATCH does not re-validate
title or description, so the invariant does not extend to updates (see
the counterexample). -/
theorem c5_constraints_hold_without_updates (st : Store)
    (h : ReachableNoUpdate st) :
    ∀ d ∈ st.tickets, d.constraintsOk = true := by
  induction h with
  | empty =>
    intro d hd
    simp [Store.empty] at hd
  | create st p newId now _ ih =>
    intro d hd
    cases hv : p.valid with
    | false =>
      simp [create_ticket, hv] at hd
      exact ih d hd
    | true =>
      simp [create_ticket, hv, List.mem_append] at hd
      rcases hd with hd | hd
      · exact ih d hd
      · rw [hd]
        exact mkTicketDoc_constraintsOk p newId now hv
  | comment st tid p newId now _ ih =>
    intro d hd
    rw [add_comment_tickets] at hd
    exact ih d hd

/-- C5 amended witness. -/
theorem c5_constraints_hold_without_updates_witness :
    (mkTicketDoc demoTicket oidA 1).constraintsOk = true :=
  c5_constraints_hold_without_updates demoStore
    (ReachableNoUpdate.create Store.empty demoTicket oidA 1 ReachableNoUpdate.empty)
    (mkTicketDoc demoTicket oidA 1) (by decide)

/-- Store in which a comment was attached to the demo ticket through the
UPPERCASE spelling of its id: bson ObjectId parsing is case-insensitive,
so the existence check passes, while the stored comment keeps the raw
path string oidAU as its ticket_id. -/
def upperStore : Store := (add_comment demoStore oidAU demoComment oidB 2).2

/-- C7 counterexample: fetching the ticket through the uppercase id
succeeds (the key parses to the same ObjectId) and returns a comments
array containing a comment whose ticket_id, the raw string oidAU, is NOT
equal to the id of the returned ticket, which is the canonical lowercase
string oidA: the code filters comments by the raw path string (main.py
line 118), not by the id of the ticket, so the response is not exactly
the comments whose ticket_id equals the id of the ticket. -/
theorem c7_counterexample :
    get_ticket upperStore oidAU
        = .ok { ticket := { id := oidA, title := .str "Printer broken"
                            description := .str "It does not print"
                            requester_email := .str "user@example.com"
                            category := .str "Hardware", priority := .str "medium"
                            status := .str "open", assignee := .null
                            created_at := 1, updated_at := 1 }
                comments := [{ id := oidB, ticket_id := oidAU, author := "bob"
                               body := "hello", created_at := 2, updated_at := 2 }] }
      ∧ oidAU ≠ oidA := by
  decide

/-- C7 amended: whenever GET /api/tickets/:id succeeds on a CANONICAL
(lowercase) well-formed id — in particular on any id string the API
itself returned — the id of the returned ticket is the requested id, and
the embedded comments array holds exactly (as a permutation) the
transformed comments whose stored ticket_id equals that id, sorted
ascending by created_at, regardless of the order in which they were
inserted. -/
theorem c7_get_embeds_sorted_matching_comments (st : Store) (tid : String)
    (out : TicketDetail)
    (hid : isValidObjectIdStr tid = true)
    (hcanon : oidCanon tid = tid)
    (hget : get_ticket st tid = .ok out) :
    out.ticket.id = tid
      ∧ out.comments.Perm
          ((st.comments.filter (fun c => c.ticket_id == tid)).map CommentDoc.toOut)
      ∧ List.Sorted (fun a b : CommentOut => a.created_at ≤ b.created_at) out.comments
      ∧ ∀ c ∈ out.comments, c.ticket_id = tid := by
  have hparse : parseObjectId tid = some tid := by
    simp [parseObjectId, hid, hcanon]
  cases hfind : st.tickets.find? (fun d => d.oid == tid) with
  | none =>
    have habs : get_ticket st tid = .error 404 "Ticket not found" := by
      simp [get_ticket, hparse, hfind]
    rw [habs] at hget
    exact absurd hget (by simp)
  | some doc =>
    have hfwd : get_ticket st tid
        = .ok ⟨doc.toOut, (sortComments (st.comments.filter
            (fun c => c.ticket_id == tid))).map CommentDoc.toOut⟩ := by
      simp [get_ticket, hparse, hfind]
    rw [hfwd] at hget
    simp only [ApiResult.ok.injEq] at hget
    subst hget
    refine ⟨?_, ?_, ?_, ?_⟩
    · have hp := List.find?_some hfind
      show doc.oid = tid
      simpa using hp
    · exact List.Perm.map CommentDoc.toOut (sortComments_perm _)
    · show List.Sorted _ (List.map CommentDoc.toOut _)
      rw [List.Sorted, List.pairwise_map]
      exact sortComments_sorted _
    · intro c hc
      rcases List.mem_map.mp hc with ⟨c1, hc1, rfl⟩
      have h1 : c1 ∈ st.comments.filter (fun c => c.ticket_id == tid) :=
        (sortComments_perm _).mem_iff.mp hc1
      have h2 := (List.mem_filter.mp h1).2
      show c1.ticket_id = tid
      simpa using h2

/-- Store for the C7 witness: three comments attached to the demo ticket
through its canonical id, inserted in the time order 3, 1, 2. -/
def sortedStore : Store :=
  (add_comment (add_comment (add_comment demoStore oidA
      { ticket_id := oidA, author := "amy", body := "first" } oidC 3).2
    oidA { ticket_id := oidA, author := "bob", body := "second" } oidD 1).2
  oidA { ticket_id := oidA, author := "cal", body := "third" } oidE 2).2

/-- Expected detail response for the C7 witness: comments ascending by
created_at although inserted in the order 3, 1, 2. -/
def sortedOut : TicketDetail :=
  { ticket := (mkTicketDoc demoTicket oidA 1).toOut
    comments :=
      [{ id := oidD, ticket_id := oidA, author := "bob", body := "second"
         created_at := 1, updated_at := 1 },
       { id := oidE, ticket_id := oidA, author := "cal", body := "third"
         created_at := 2, updated_at := 2 },
       { id := oidC, ticket_id := oidA, author := "amy", body := "first"
         created_at := 3, updated_at := 3 }] }

/-- C7 amended witness. -/
theorem c7_get_embeds_sorted_matching_comments_witness :
    get_ticket sortedStore oidA = .ok sortedOut
      ∧ sortedOut.ticket.id = oidA
      ∧ sortedOut.comments.Perm ((sortedStore.comments.filter
          (fun c => c.ticket_id == oidA)).map CommentDoc.toOut)
      ∧ List.Sorted (fun a b : CommentOut => a.created_at ≤ b.created_at)
          sortedOut.comments := by
  have h := c7_get_embeds_sorted_matching_comments sortedStore oidA sortedOut
    (by decide) (by decide) (by decide)
  exact ⟨by decide, h.1, h.2.1, h.2.2.1⟩

end Ticketing
